import Mathlib

/-!
Verification of the video job orchestration pipeline of the
Text-Driven-Educational-Animation-Video-Generator repository.

The development shallowly embeds:
  * the front end's Appwrite service layer
    (frontend_example/src/app/services/appwrite.ts),
  * the intake route (frontend_example/src/app/api/generate/route.ts),
  * the VideoGenerator component's subscription and polling logic,
  * and a model of the worker/orchestrator described by the spec
    (the Python worker itself is not part of the checked sources).

All definitions are executable; theorems settle the frozen claims.
-/

namespace VideoApp

/-- Job status values as declared in the `VideoDocument` interface of
appwrite.ts (line 29): six string literals. -/
inductive VStatus where
  | queued
  | planning
  | rendering
  | completed
  | failed
  | queued_for_render
deriving DecidableEq, Repr

/-- Scene status values as declared in the `SceneDocument` interface of
appwrite.ts (line 47). -/
inductive SStatus where
  | planned
  | coded
  | rendered
  | failed
deriving DecidableEq, Repr

/-- The `VideoDocument` interface of appwrite.ts (lines 25-41).
Optional TypeScript fields become `Option`; `$id` becomes `id`. -/
structure VideoDocument where
  id : String
  topic : String
  description : Option String
  status : VStatus
  progress : Option Nat
  current_scene : Option Nat
  scene_count : Nat
  owner_id : Option String
  session_id : Option String
  combined_video_url : Option String
  subtitles_url : Option String
  error_message : Option String
  total_duration : Option Nat
  created_at : String
  updated_at : String
deriving DecidableEq, Repr

/-- The `SceneDocument` interface of appwrite.ts (lines 43-58). -/
structure SceneDocument where
  id : String
  video_id : String
  scene_number : Nat
  status : SStatus
  scene_plan : Option String
  storyboard : Option String
  technical_plan : Option String
  generated_code : Option String
  video_url : Option String
  code_url : Option String
  duration : Option Nat
  error_message : Option String
  created_at : String
  updated_at : String
deriving DecidableEq, Repr

/-- `getVideo` of appwrite.ts (lines 160-194): the store call either
returns a document or throws; the catch branch returns `null`. The
store outcome is passed explicitly as an `Except` value. -/
def getVideo (resp : Except String VideoDocument) : Option VideoDocument :=
  match resp with
  | .ok doc => some doc
  | .error _ => none

/-- `getVideoScenes` of appwrite.ts (lines 197-217): the list call either
returns the documents or throws; the catch branch returns `[]`. -/
def getVideoScenes (resp : Except String (List SceneDocument)) : List SceneDocument :=
  match resp with
  | .ok docs => docs
  | .error _ => []

/-- The fallback description built by the intake route
(route.ts line 126): backtick template `Educational video about ...`. -/
def fallbackDescription (topic : String) : String :=
  "Educational video about " ++ topic

/-- The description actually stored by route.ts line 126:
`description || fallback`. A missing description and the empty string
are both falsy in JavaScript, so both select the fallback. -/
def mkDescription (description : Option String) (topic : String) : String :=
  match description with
  | some d => if d = "" then fallbackDescription topic else d
  | none => fallbackDescription topic

/-- JavaScript truthiness of the `topic` string at route.ts line 112:
`!topic` is true exactly when the field is absent or the empty string. -/
def topicMissing (topic : Option String) : Bool :=
  match topic with
  | none => true
  | some t => t = ""

/-- Response shapes of POST /api/generate (route.ts lines 112-177). -/
inductive GenResponse where
  | ok (videoId : String)
  | badRequest (error : String)
  | serverError (error : String)
deriving DecidableEq, Repr

/-- The fields of the Job document created by route.ts lines 120-132. -/
structure CreatedVideoDoc where
  topic : String
  description : String
  status : VStatus
  scene_count : Nat
deriving DecidableEq, Repr

/-- Outcome of the `databases.createDocument` call, which can throw. -/
inductive StoreWrite where
  | success (id : String)
  | failure (err : String)
deriving DecidableEq, Repr

/-- Request body of POST /api/generate; `none` for the whole body models
`request.json()` throwing on an unparsable body. -/
structure GenRequestBody where
  topic : Option String
  description : Option String
deriving DecidableEq, Repr

/-- POST /api/generate (route.ts lines 88-178): parse the body, reject a
missing or empty topic with a 400 and no document; otherwise create one
document with status `queued_for_render` and `scene_count` 0. Any thrown
error (body parse or store write) is caught and answered with a 500 and
no document. Returns the response together with the document created, if
any. -/
def postGenerate (body : Option GenRequestBody) (store : StoreWrite) :
    GenResponse × Option CreatedVideoDoc :=
  match body with
  | none => (.serverError "Failed to create video task in the database.", none)
  | some b =>
    match b.topic with
    | none => (.badRequest "Topic is required", none)
    | some t =>
      if t = "" then (.badRequest "Topic is required", none)
      else
        match store with
        | .success vid =>
          (.ok vid,
            some { topic := t
                   description := mkDescription b.description t
                   status := .queued_for_render
                   scene_count := 0 })
        | .failure e => (.serverError e, none)

/-- A response counts as an error when it is not the success shape. -/
def isErrorResponse : GenResponse → Bool
  | .ok _ => false
  | .badRequest _ => true
  | .serverError _ => true

/-! Sorting by a numeric key, used to model the JavaScript
`sort((a, b) => a.scene_number - b.scene_number)` call and the worker's
oldest-created-first query: insertion sort by the key. -/

/-- Insert `x` into `l` in front of the first element whose key is not
smaller. -/
def insertByKey {α : Type} (key : α → Nat) (x : α) : List α → List α
  | [] => [x]
  | y :: ys => if key x ≤ key y then x :: y :: ys else y :: insertByKey key x ys

/-- Sort a list in ascending key order. -/
def sortByKey {α : Type} (key : α → Nat) (l : List α) : List α :=
  l.foldr (insertByKey key) []

/-- A list is in ascending key order. -/
def SortedByKey {α : Type} (key : α → Nat) (l : List α) : Prop :=
  l.Pairwise (fun a b => key a ≤ key b)

theorem mem_insertByKey {α : Type} (key : α → Nat) (x : α) (l : List α) (a : α) :
    a ∈ insertByKey key x l ↔ a = x ∨ a ∈ l := by
  induction l with
  | nil => simp [insertByKey]
  | cons y ys ih =>
    by_cases h : key x ≤ key y
    · simp [insertByKey, h]
    · simp only [insertByKey, if_neg h, List.mem_cons, ih]
      tauto

theorem sortedByKey_insertByKey {α : Type} (key : α → Nat) (x : α) (l : List α)
    (h : SortedByKey key l) : SortedByKey key (insertByKey key x l) := by
  induction l with
  | nil => simp [insertByKey, SortedByKey]
  | cons y ys ih =>
    rcases h with _ | ⟨hy, hys⟩
    unfold SortedByKey
    by_cases hxy : key x ≤ key y
    · simp only [insertByKey, if_pos hxy]
      refine List.Pairwise.cons ?_ (List.Pairwise.cons hy hys)
      intro b hb
      rcases List.mem_cons.mp hb with rfl | hb
      · exact hxy
      · exact le_trans hxy (hy b hb)
    · simp only [insertByKey, if_neg hxy]
      refine List.Pairwise.cons ?_ (ih hys)
      intro b hb
      rcases (mem_insertByKey key x ys b).mp hb with rfl | hb
      · exact le_of_not_le hxy
      · exact hy b hb

theorem sortedByKey_sortByKey {α : Type} (key : α → Nat) (l : List α) :
    SortedByKey key (sortByKey key l) := by
  induction l with
  | nil => exact List.Pairwise.nil
  | cons x xs ih => exact sortedByKey_insertByKey key x _ ih

theorem mem_sortByKey {α : Type} (key : α → Nat) (l : List α) (a : α) :
    a ∈ sortByKey key l ↔ a ∈ l := by
  induction l with
  | nil => simp [sortByKey]
  | cons x xs ih =>
    simp only [sortByKey, List.foldr_cons, List.mem_cons]
    rw [mem_insertByKey]
    simp only [sortByKey] at ih
    rw [ih]

theorem length_insertByKey {α : Type} (key : α → Nat) (x : α) (l : List α) :
    (insertByKey key x l).length = l.length + 1 := by
  induction l with
  | nil => simp [insertByKey]
  | cons y ys ih =>
    by_cases h : key x ≤ key y
    · simp [insertByKey, h]
    · simp [insertByKey, h, ih]

theorem length_sortByKey {α : Type} (key : α → Nat) (l : List α) :
    (sortByKey key l).length = l.length := by
  induction l with
  | nil => rfl
  | cons x xs ih =>
    simp only [sortByKey, List.foldr_cons, List.length_cons] at *
    rw [length_insertByKey, ih]

/-! The VideoGenerator component's in-memory scene list
(components/VideoGenerator.tsx, the `subscribeToVideoScenes` callback). -/

/-- One step of the scene-subscription callback (VideoGenerator lines
100-110): if a scene with the same `$id` is already known, it is replaced
in place (`newScenes[existingIndex] = updatedScene`); otherwise the scene
is appended and the list re-sorted by `scene_number`. -/
def applySceneUpdate (prev : List SceneDocument) (u : SceneDocument) :
    List SceneDocument :=
  match prev.findIdx? (fun s => s.id = u.id) with
  | some i => prev.set i u
  | none => sortByKey (fun s => s.scene_number) (prev ++ [u])

/-- The scene list after a sequence of subscription updates, starting
from the empty list set by `handleSubmit` (VideoGenerator line 168). -/
def runSceneUpdates (updates : List SceneDocument) : List SceneDocument :=
  updates.foldl applySceneUpdate []

/-- The scene list is sorted in ascending `scene_number` order. -/
def ScenesSorted (l : List SceneDocument) : Prop :=
  SortedByKey (fun s => s.scene_number) l

instance (l : List SceneDocument) : Decidable (ScenesSorted l) := by
  unfold ScenesSorted SortedByKey
  infer_instance

/-! The VideoGenerator component's handling of a Completed Job whose
combined media reference has not yet been observed. -/

/-- Condition guarding the poll effect (VideoGenerator line 123):
`currentVideo.status === 'completed' && !currentVideo.combined_video_url`.
Also the condition of the waiting panel at line 565. -/
def completedLagBranch (v : VideoDocument) : Bool :=
  decide (v.status = .completed) && v.combined_video_url.isNone

/-- The biconditional of the invariant claimed for observed documents:
the combined media reference is set exactly when the status is Completed. -/
def mediaRefIffCompleted (v : VideoDocument) : Bool :=
  v.combined_video_url.isSome = decide (v.status = .completed)

/-- Condition of the finished-video panel (VideoGenerator line 510):
status completed and the reference present. -/
def completedWithUrlBranch (v : VideoDocument) : Bool :=
  decide (v.status = .completed) && v.combined_video_url.isSome

/-- Poll loop bound of VideoGenerator line 132: `maxAttempts = 10`. -/
def maxPollAttempts : Nat := 10

/-- Error text set at VideoGenerator line 145 when the reference is still
missing after the last attempt. -/
def lagTimeoutMessage : String :=
  "The video finished rendering, but the file is still processing. Please wait a little longer or refresh the page."

/-- Error text set at VideoGenerator line 151 when polling itself kept
throwing. -/
def pollFailureMessage : String :=
  "There was a problem retrieving the final video file. Please try refreshing the page."

/-- State of the polling effect of VideoGenerator lines 120-159:
attempt counter, the `currentVideo` and `error` React states it can set,
and whether `clearInterval` has run. -/
structure PollState where
  attempts : Nat
  current : Option VideoDocument
  error : Option String
  stopped : Bool
deriving DecidableEq, Repr

/-- Outcome of one `getVideo` call inside the interval callback: a value
(possibly `null`) or a thrown error. -/
inductive FetchResult where
  | ok (v : Option VideoDocument)
  | exn (e : String)
deriving DecidableEq, Repr

/-- One interval tick (VideoGenerator lines 133-155): increment the
attempt counter; if the fetched document carries the reference, store it
and stop; otherwise stop with an error message once `maxAttempts` is
reached; a thrown fetch also only surfaces an error at `maxAttempts`. -/
def pollTick (s : PollState) (f : FetchResult) : PollState :=
  if s.stopped then s
  else
    let a := s.attempts + 1
    match f with
    | .ok latest =>
      match latest with
      | some v =>
        if v.combined_video_url.isSome then
          { s with attempts := a, current := some v, stopped := true }
        else if maxPollAttempts ≤ a then
          { s with attempts := a, error := some lagTimeoutMessage, stopped := true }
        else
          { s with attempts := a }
      | none =>
        if maxPollAttempts ≤ a then
          { s with attempts := a, error := some lagTimeoutMessage, stopped := true }
        else
          { s with attempts := a }
    | .exn _ =>
      if maxPollAttempts ≤ a then
        { s with attempts := a, error := some pollFailureMessage, stopped := true }
      else
        { s with attempts := a }

/-- Initial state of the polling effect: zero attempts, nothing stored. -/
def pollStart : PollState :=
  { attempts := 0, current := none, error := none, stopped := false }

/-- Run the polling effect over a sequence of fetch outcomes. -/
def pollRun (fs : List FetchResult) : PollState :=
  fs.foldl pollTick pollStart

/-! Model of the worker and orchestrator. The Python worker
(api_server.py, scripts/video_worker.py, generate_video.py) is described
by the repository's documentation but its code is not among the checked
sources, so the orchestrator below is modelled from the spec. -/

/-- Modelled from the spec: Job status enum of section 3
(QueuedForRender, Planning, Rendering, Completed, Failed); the worker
code that owns it is not under the checked sources. -/
inductive JobStatus where
  | queuedForRender
  | planning
  | rendering
  | completed
  | failed
deriving DecidableEq, Repr

/-- Modelled from the spec: the Job record of section 3 (id, topic,
description, status, progress, scene_count, combined_media_ref,
error_message); the worker code that writes it is not under the checked
sources. Timestamps are omitted: no claim depends on them except
creation order, which the queue model below carries explicitly. -/
structure Job where
  id : String
  topic : String
  description : Option String
  status : JobStatus
  progress : Nat
  scene_count : Nat
  combined_media_ref : Option String
  error_message : Option String
deriving DecidableEq, Repr

/-- Modelled from the spec: the Scene record of section 3 (job_id,
scene_number, status, media_ref, duration, error_message); the worker
code that writes it is not under the checked sources. -/
structure Scene where
  job_id : String
  scene_number : Nat
  status : SStatus
  media_ref : Option String
  duration : Option Nat
  error_message : Option String
deriving DecidableEq, Repr

/-- Modelled from the spec: the claim step of section 4.2 step 1 and
section 5 — a single conditional write that sets the status to Planning
only if it is still QueuedForRender, and otherwise aborts with no side
effect (here: returns `none` and changes nothing). -/
def tryClaim (j : Job) : Option Job :=
  if j.status = JobStatus.queuedForRender then
    some { j with status := .planning }
  else
    none

/-- Modelled from the spec: outcome of the Scene Planner call
(section 4.5) — a number of planned scenes or a planning error. -/
inductive PlanOutcome where
  | success (n : Nat)
  | failure (err : String)
deriving Repr

/-- Modelled from the spec: outcome of one Scene Renderer Adapter call
(section 4.3) — a media reference with a duration, or a render error. -/
inductive RenderOutcome where
  | success (media : String) (dur : Nat)
  | failure (err : String)
deriving Repr

/-- Modelled from the spec: outcome of the Video Assembler call
(section 4.4) — an uploaded blob reference or an assembly error. -/
inductive AsmOutcome where
  | success (ref : String)
  | failure (err : String)
deriving Repr

/-- Modelled from the spec: `round(k / n * 100)` of section 4.2 step 3,
as round-half-up on naturals: `(200 * k + n) / (2 * n)`. -/
def roundPct (k n : Nat) : Nat :=
  (200 * k + n) / (2 * n)

/-- A Scene as created during planning: Planned, nothing else set. -/
def plannedScene (jid : String) (k : Nat) : Scene :=
  { job_id := jid, scene_number := k, status := .planned,
    media_ref := none, duration := none, error_message := none }

/-- Modelled from the spec: the render phase of section 4.2 step 3,
driven by fuel (scenes left) starting at scene number `k`. Scene `k`
either renders — it is marked Rendered with media/duration and the
progress write `roundPct k n` is emitted — or fails, in which case that
Scene is marked Failed with its error and the remaining scenes stay
Planned (never attempted). Returns the scene records, the progress
writes in order, and the failing scene with its error, if any. -/
def runRenderAux (jid : String) (n : Nat) (renders : Nat → RenderOutcome) :
    Nat → Nat → List Scene × List Nat × Option (Nat × String)
  | 0, _ => ([], [], none)
  | fuel + 1, k =>
    match renders k with
    | .success m d =>
      let rest := runRenderAux jid n renders fuel (k + 1)
      ({ job_id := jid, scene_number := k, status := .rendered,
         media_ref := some m, duration := some d, error_message := none } :: rest.1,
       roundPct k n :: rest.2.1, rest.2.2)
    | .failure e =>
      ({ job_id := jid, scene_number := k, status := .failed,
         media_ref := none, duration := none, error_message := some e } ::
         (List.range fuel).map (fun i => plannedScene jid (k + 1 + i)),
       [], some (k, e))

/-- Render scenes 1..n in order. -/
def runRender (jid : String) (n : Nat) (renders : Nat → RenderOutcome) :
    List Scene × List Nat × Option (Nat × String) :=
  runRenderAux jid n renders n 1

/-- The last progress value written during rendering, 0 when none was. -/
def lastProgress (ps : List Nat) : Nat :=
  ps.getLastD 0

/-- Result of one orchestrator run: the final Job, the Scene records,
the progress values written during Rendering, and the ordered trace of
Job states written to the store. -/
structure ProcessResult where
  job : Job
  scenes : List Scene
  progressWrites : List Nat
  jobTrace : List Job
deriving Repr

/-- Modelled from the spec: `process(job)` of section 4.2. Claim the job
(conditional write; abort with no side effect on conflict); plan — a
failure or zero scenes fails the job; otherwise enter Rendering with
progress 0 and scene_count n, render scenes in order persisting progress
after each, and on full success assemble: success completes the job with
the combined reference and progress 100, failure fails it. Each
transition's fields are written atomically together. -/
def process (j : Job) (plan : PlanOutcome) (renders : Nat → RenderOutcome)
    (asm : AsmOutcome) : ProcessResult :=
  match tryClaim j with
  | none => { job := j, scenes := [], progressWrites := [], jobTrace := [] }
  | some j1 =>
    match plan with
    | .failure e =>
      let jf := { j1 with status := .failed, error_message := some e }
      { job := jf, scenes := [], progressWrites := [], jobTrace := [j1, jf] }
    | .success n =>
      if n = 0 then
        let jf :=
          { j1 with
            status := .failed
            error_message := some "Planning produced no scenes" }
        { job := jf, scenes := [], progressWrites := [], jobTrace := [j1, jf] }
      else
        let j2 := { j1 with status := .rendering, scene_count := n, progress := 0 }
        let r := runRender j.id n renders
        let renderTrace := r.2.1.map (fun p => { j2 with progress := p })
        match r.2.2 with
        | some ke =>
          let jf :=
            { j2 with
              progress := lastProgress r.2.1
              status := .failed
              error_message :=
                some ("Scene " ++ toString ke.1 ++ " failed: " ++ ke.2) }
          { job := jf, scenes := r.1, progressWrites := r.2.1,
            jobTrace := [j1, j2] ++ renderTrace ++ [jf] }
        | none =>
          match asm with
          | .success ref =>
            let jc :=
              { j2 with
                status := .completed
                progress := 100
                combined_media_ref := some ref }
            { job := jc, scenes := r.1, progressWrites := r.2.1,
              jobTrace := [j1, j2] ++ renderTrace ++ [jc] }
          | .failure e =>
            let jf :=
              { j2 with
                progress := lastProgress r.2.1
                status := .failed
                error_message := some e }
            { job := jf, scenes := r.1, progressWrites := r.2.1,
              jobTrace := [j1, j2] ++ renderTrace ++ [jf] }

/-- Modelled from the spec: a stored Job row as seen by the dispatch
query of section 4.1 — id, creation instant, status. -/
structure QueueJob where
  id : String
  created_at : Nat
  status : JobStatus
deriving DecidableEq, Repr

/-- Modelled from the spec: the default batch size of `tick()`
(section 4.1), also stated by the repository docs: "This will process up
to 5 queued videos immediately". -/
def defaultBatchSize : Nat := 5

/-- Modelled from the spec: the selection made by `tick()` (section 4.1)
— Jobs with status QueuedForRender, ordered oldest-created-first, up to
the batch size; the worker code that issues the query is not under the
checked sources. -/
def tickSelect (store : List QueueJob) (batch : Nat) : List QueueJob :=
  (sortByKey (fun q => q.created_at)
    (store.filter (fun q => decide (q.status = .queuedForRender)))).take batch

/-! Concrete sample values used by witnesses and counterexamples. -/

/-- A freshly created Job as the intake leaves it: QueuedForRender,
scene_count 0, no media reference, no error. -/
def sampleQueuedJob : Job :=
  { id := "v1", topic := "Gravity", description := none,
    status := .queuedForRender, progress := 0, scene_count := 0,
    combined_media_ref := none, error_message := none }

/-- An observed video document with status completed whose combined
media reference has not yet appeared: exactly the input handled by the
VideoGenerator branches at lines 123 and 565. -/
def lagDoc : VideoDocument :=
  { id := "v1", topic := "Gravity", description := none,
    status := .completed, progress := some 100, current_scene := none,
    scene_count := 2, owner_id := none, session_id := none,
    combined_video_url := none, subtitles_url := none,
    error_message := none, total_duration := none,
    created_at := "t0", updated_at := "t1" }

/-- The same document once the combined media reference has appeared. -/
def readyDoc : VideoDocument :=
  { lagDoc with combined_video_url := some "f1" }

/-- A scene document; only id and scene_number vary in the tests. -/
def mkSceneDoc (sid : String) (k : Nat) : SceneDocument :=
  { id := sid, video_id := "v1", scene_number := k, status := .planned,
    scene_plan := none, storyboard := none, technical_plan := none,
    generated_code := none, video_url := none, code_url := none,
    duration := none, error_message := none,
    created_at := "t0", updated_at := "t0" }

/-! Supporting lemmas about the intake route. -/

theorem fallbackDescription_ne_empty (t : String) : fallbackDescription t ≠ "" := by
  intro h
  have hlen := congrArg String.length h
  rw [fallbackDescription, String.length_append] at hlen
  have h24 : ("Educational video about " : String).length = 24 := rfl
  have h0 : ("" : String).length = 0 := rfl
  rw [h24, h0] at hlen
  omega

theorem mkDescription_ne_empty (d : Option String) (t : String) :
    mkDescription d t ≠ "" := by
  cases d with
  | none => exact fallbackDescription_ne_empty t
  | some s =>
    by_cases hs : s = ""
    · simpa [mkDescription, hs] using fallbackDescription_ne_empty t
    · simp only [mkDescription, if_neg hs]
      exact hs

/-! Claim theorems. -/

/-- C9: when the intake request omits the description, the created Job's
description is "Educational video about " followed by the topic; and
every Job the route creates has a non-empty description even though the
field is optional at the interface. -/
theorem claim9_default_description (t : String) (ht : t ≠ "") :
    (∀ vid,
      (postGenerate (some { topic := some t, description := none }) (.success vid)).2 =
        some { topic := t, description := "Educational video about " ++ t,
               status := .queued_for_render, scene_count := 0 }) ∧
    (∀ (body : Option GenRequestBody) (store : StoreWrite) (doc : CreatedVideoDoc),
      (postGenerate body store).2 = some doc → doc.description ≠ "") := by
  constructor
  · intro vid
    simp [postGenerate, ht, mkDescription, fallbackDescription]
  · intro body store doc h
    match body with
    | none => simp [postGenerate] at h
    | some b =>
      match hb : b.topic with
      | none => simp [postGenerate, hb] at h
      | some t' =>
        by_cases ht' : t' = ""
        · simp [postGenerate, hb, ht'] at h
        · match store with
          | .failure e => simp [postGenerate, hb, ht'] at h
          | .success vid =>
            simp [postGenerate, hb, ht'] at h
            rw [← h]
            exact mkDescription_ne_empty b.description t'

/-- Witness for C9 at the concrete topic "Gravity". -/
theorem claim9_default_description_witness :
    ("Gravity" : String) ≠ "" ∧
    (postGenerate (some { topic := some "Gravity", description := none })
        (.success "v1")).2 =
      some { topic := "Gravity", description := "Educational video about Gravity",
             status := .queued_for_render, scene_count := 0 } := by
  refine ⟨by decide, ?_⟩
  have h := (claim9_default_description "Gravity" (by decide)).1 "v1"
  rw [h]
  rfl

/-- C10: the read operations are total at the public interface: getVideo
returns the document or null, getVideoScenes returns the list or the
empty list; a throwing store call is caught, never propagated. -/
theorem claim10_reads_total (d : VideoDocument) (e : String)
    (l : List SceneDocument) :
    getVideo (Except.ok d) = some d ∧ getVideo (Except.error e) = none ∧
    getVideoScenes (Except.ok l) = l ∧ getVideoScenes (Except.error e) = [] :=
  ⟨rfl, rfl, rfl, rfl⟩

/-- C6 counterexample: with a non-empty topic and a failing store write,
POST /api/generate returns an error (500) and creates no Job although
the topic is neither missing nor empty, refuting the claimed "if and
only if". -/
theorem claim6_counterexample :
    topicMissing (some "Gravity") = false ∧
    isErrorResponse
      (postGenerate (some { topic := some "Gravity", description := none })
        (.failure "store write failed")).1 = true ∧
    (postGenerate (some { topic := some "Gravity", description := none })
      (.failure "store write failed")).2 = none :=
  ⟨rfl, rfl, rfl⟩

/-- C6 (amended): a missing or empty topic yields a 400 error and no Job;
with a non-empty topic the route attempts exactly one document write with
status queued_for_render and scene_count 0, answering success when the
store write succeeds and a 500 error with no Job when it throws; an
unparsable body also yields a 500 error and no Job. -/
theorem claim6_intake_behavior (b : GenRequestBody) (store : StoreWrite) :
    (topicMissing b.topic = true →
      postGenerate (some b) store = (.badRequest "Topic is required", none)) ∧
    (topicMissing b.topic = false →
      (∀ vid, store = .success vid →
        ∃ t, b.topic = some t ∧
          postGenerate (some b) store =
            (.ok vid,
              some { topic := t, description := mkDescription b.description t,
                     status := .queued_for_render, scene_count := 0 })) ∧
      (∀ err, store = .failure err →
        postGenerate (some b) store = (.serverError err, none))) ∧
    postGenerate none store =
      (.serverError "Failed to create video task in the database.", none) := by
  refine ⟨?_, ?_, rfl⟩
  · intro hmiss
    match hb : b.topic with
    | none => simp [postGenerate, hb]
    | some t =>
      rw [hb] at hmiss
      have ht : t = "" := by simpa [topicMissing] using hmiss
      simp [postGenerate, hb, ht]
  · intro hmiss
    match hb : b.topic with
    | none => rw [hb] at hmiss; simp [topicMissing] at hmiss
    | some t =>
      rw [hb] at hmiss
      have ht : ¬ t = "" := by simpa [topicMissing] using hmiss
      constructor
      · intro vid hstore
        subst hstore
        exact ⟨t, rfl, by simp [postGenerate, hb, ht]⟩
      · intro err hstore
        subst hstore
        simp [postGenerate, hb, ht]

/-- Witness for C6 (amended) at a concrete request and store outcome. -/
theorem claim6_intake_behavior_witness :
    topicMissing (some "Gravity") = false ∧
    postGenerate (some { topic := some "Gravity", description := none })
        (.success "v1") =
      (.ok "v1",
        some { topic := "Gravity", description := "Educational video about Gravity",
               status := .queued_for_render, scene_count := 0 }) := by
  refine ⟨rfl, ?_⟩
  obtain ⟨t, ht, heq⟩ :=
    ((claim6_intake_behavior { topic := some "Gravity", description := none }
      (.success "v1")).2.1 rfl).1 "v1" rfl
  have : t = "Gravity" := by
    simpa using ht.symm
  subst this
  rw [heq]
  rfl

/-- C1: on a QueuedForRender Job the first claim attempt is the single
conditional write that moves the Job to Planning; the second attempt,
serialized after it by the store, fails the condition and aborts — its
whole process run is a no-op with no side effect on the Job. -/
theorem claim1_claim_idempotence (j : Job) (h : j.status = .queuedForRender) :
    tryClaim j = some { j with status := .planning } ∧
    ∀ j1, tryClaim j = some j1 →
      tryClaim j1 = none ∧
      ∀ plan renders asm,
        process j1 plan renders asm =
          { job := j1, scenes := [], progressWrites := [], jobTrace := [] } := by
  have h1 : tryClaim j = some { j with status := .planning } := by
    simp [tryClaim, h]
  refine ⟨h1, ?_⟩
  intro j1 hj1
  rw [h1] at hj1
  have hj1' : j1 = { j with status := .planning } := (Option.some.inj hj1).symm
  subst hj1'
  have h2 : tryClaim { j with status := JobStatus.planning } = none := by
    simp [tryClaim]
  exact ⟨h2, fun plan renders asm => by simp [process, h2]⟩

/-- Witness for C1 at a concrete queued Job. -/
theorem claim1_claim_idempotence_witness :
    sampleQueuedJob.status = .queuedForRender ∧
    tryClaim sampleQueuedJob = some { sampleQueuedJob with status := .planning } ∧
    tryClaim { sampleQueuedJob with status := .planning } = none := by
  refine ⟨rfl, (claim1_claim_idempotence sampleQueuedJob rfl).1, ?_⟩
  exact (((claim1_claim_idempotence sampleQueuedJob rfl).2 _
    (claim1_claim_idempotence sampleQueuedJob rfl).1)).1

/-- C7: `tick()` selects only QueuedForRender Jobs, oldest-created-first,
never more than the batch size; every queued Job is selected whenever the
queue fits into the batch; and with no queued Job the invocation is a
no-op (empty selection). -/
theorem claim7_tick_selection (store : List QueueJob) (batch : Nat) :
    (∀ q ∈ tickSelect store batch, q.status = .queuedForRender) ∧
    (tickSelect store batch).length ≤ batch ∧
    (tickSelect store batch).Pairwise (fun a b => a.created_at ≤ b.created_at) ∧
    ((∀ q ∈ store, q.status ≠ .queuedForRender) → tickSelect store batch = []) ∧
    ((store.filter (fun q => decide (q.status = .queuedForRender))).length ≤ batch →
      ∀ q ∈ store, q.status = .queuedForRender → q ∈ tickSelect store batch) := by
  refine ⟨?_, ?_, ?_, ?_, ?_⟩
  · intro q hq
    have hq1 : q ∈ sortByKey (fun q => q.created_at)
        (store.filter (fun q => decide (q.status = .queuedForRender))) :=
      List.take_subset _ _ hq
    have hq2 := (mem_sortByKey _ _ q).mp hq1
    have := (List.mem_filter.mp hq2).2
    simpa using this
  · rw [tickSelect, List.length_take]
    exact min_le_left _ _
  · exact List.Pairwise.sublist (List.take_sublist _ _) (sortedByKey_sortByKey _ _)
  · intro h
    have hf : store.filter (fun q => decide (q.status = .queuedForRender)) = [] := by
      rw [List.filter_eq_nil_iff]
      intro q hq
      simpa using h q hq
    rw [tickSelect, hf]
    simp [sortByKey]
  · intro hlen q hq hst
    have hmem : q ∈ store.filter (fun q => decide (q.status = .queuedForRender)) :=
      List.mem_filter.mpr ⟨hq, by simp [hst]⟩
    have hall : (sortByKey (fun q => q.created_at)
        (store.filter (fun q => decide (q.status = .queuedForRender)))).take batch =
        sortByKey (fun q => q.created_at)
          (store.filter (fun q => decide (q.status = .queuedForRender))) := by
      apply List.take_of_length_le
      rw [length_sortByKey]
      exact hlen
    rw [tickSelect, hall]
    exact (mem_sortByKey _ _ q).mpr hmem

/-- Witness for C7 at a concrete store of three Jobs, two of them
queued. -/
theorem claim7_tick_selection_witness :
    (([⟨"a", 5, .queuedForRender⟩, ⟨"b", 1, .completed⟩,
       ⟨"c", 3, .queuedForRender⟩] : List QueueJob).filter
        (fun q => decide (q.status = .queuedForRender))).length ≤ defaultBatchSize ∧
    (⟨"c", 3, .queuedForRender⟩ : QueueJob) ∈
      tickSelect [⟨"a", 5, .queuedForRender⟩, ⟨"b", 1, .completed⟩,
        ⟨"c", 3, .queuedForRender⟩] defaultBatchSize := by
  refine ⟨by decide, ?_⟩
  exact (claim7_tick_selection [⟨"a", 5, .queuedForRender⟩, ⟨"b", 1, .completed⟩,
    ⟨"c", 3, .queuedForRender⟩] defaultBatchSize).2.2.2.2 (by decide)
    ⟨"c", 3, .queuedForRender⟩ (by simp) rfl

/-! Supporting lemmas for the scene-list claim. -/

theorem findIdx?_some_getElem {α : Type} (p : α → Bool) (l : List α) (i : Nat)
    (h : l.findIdx? p = some i) : ∃ a, l[i]? = some a ∧ p a = true := by
  induction l generalizing i with
  | nil => simp at h
  | cons x xs ih =>
    rw [List.findIdx?_cons] at h
    by_cases hx : p x
    · rw [if_pos hx] at h
      cases h
      exact ⟨x, by simp, hx⟩
    · rw [if_neg hx, List.findIdx?_succ] at h
      match hfind : xs.findIdx? p with
      | none => rw [hfind] at h; simp at h
      | some j =>
        rw [hfind] at h
        simp only [Option.map_some'] at h
        obtain ⟨a, ha, hpa⟩ := ih j hfind
        cases h
        exact ⟨a, by simpa using ha, hpa⟩

theorem sortedByKey_set {α : Type} (key : α → Nat) (l : List α) (i : Nat) (u : α)
    (h : SortedByKey key l) (hk : ∀ a, l[i]? = some a → key a = key u) :
    SortedByKey key (l.set i u) := by
  induction l generalizing i with
  | nil => exact h
  | cons x xs ih =>
    rcases h with _ | ⟨hx, hxs⟩
    match i with
    | 0 =>
      have hku : key x = key u := hk x (by simp)
      refine List.Pairwise.cons ?_ hxs
      intro b hb
      rw [← hku]
      exact hx b hb
    | j + 1 =>
      simp only [List.set_cons_succ]
      refine List.Pairwise.cons ?_ (ih j hxs (fun a ha => hk a (by simpa using ha)))
      intro b hb
      have hb' := hb
      rcases List.mem_or_eq_of_mem_set hb with hmem | rfl
      · exact hx b hmem
      · by_cases hj : j < xs.length
        · have hget : xs[j]? = some xs[j] := List.getElem?_eq_getElem hj
          have hkey := hk xs[j] (by simp)
          rw [← hkey]
          exact hx _ (List.getElem_mem hj)
        · rw [List.set_eq_of_length_le (Nat.le_of_not_lt hj)] at hb'
          exact hx _ hb'

theorem mem_applySceneUpdate (prev : List SceneDocument) (u s : SceneDocument)
    (h : s ∈ applySceneUpdate prev u) : s ∈ prev ∨ s = u := by
  rw [applySceneUpdate] at h
  match hfind : prev.findIdx? (fun t => t.id = u.id) with
  | some i =>
    rw [hfind] at h
    exact List.mem_or_eq_of_mem_set h
  | none =>
    rw [hfind] at h
    have := (mem_sortByKey _ _ s).mp h
    simpa using this

theorem applySceneUpdate_sorted (prev : List SceneDocument) (u : SceneDocument)
    (hs : ScenesSorted prev)
    (hnum : ∀ s ∈ prev, s.id = u.id → s.scene_number = u.scene_number) :
    ScenesSorted (applySceneUpdate prev u) := by
  rw [applySceneUpdate]
  match hfind : prev.findIdx? (fun t => t.id = u.id) with
  | some i =>
    rw [hfind]
    apply sortedByKey_set _ _ _ _ hs
    intro a ha
    obtain ⟨b, hb, hpb⟩ := findIdx?_some_getElem _ _ _ hfind
    rw [hb] at ha
    cases ha
    apply hnum a
    · exact List.getElem?_mem hb
    · simpa using hpb
  | none =>
    rw [hfind]
    exact sortedByKey_sortByKey _ _

theorem runSceneUpdates_sorted_aux (us : List SceneDocument) :
    ∀ acc : List SceneDocument, ScenesSorted acc →
    (∀ s ∈ acc, ∀ u ∈ us, s.id = u.id → s.scene_number = u.scene_number) →
    (∀ u1 ∈ us, ∀ u2 ∈ us, u1.id = u2.id → u1.scene_number = u2.scene_number) →
    ScenesSorted (us.foldl applySceneUpdate acc) := by
  induction us with
  | nil => intro acc hacc _ _; exact hacc
  | cons u rest ih =>
    intro acc hacc hcons hus
    rw [List.foldl_cons]
    apply ih
    · exact applySceneUpdate_sorted acc u hacc
        (fun s hsm hid => hcons s hsm u (List.mem_cons_self u rest) hid)
    · intro s hsm u' hu' hid
      rcases mem_applySceneUpdate acc u s hsm with hsm | rfl
      · exact hcons s hsm u' (List.mem_cons_of_mem u hu') hid
      · exact hus s (List.mem_cons_self s rest) u' (List.mem_cons_of_mem s hu') hid
    · intro u1 h1 u2 h2 hid
      exact hus u1 (List.mem_cons_of_mem u h1) u2 (List.mem_cons_of_mem u h2) hid

/-- C8 counterexample: three subscription updates carrying pairwise
distinct scene numbers — scene "a" arrives as number 1, scene "b" as
number 2, then an update to the already-known scene "a" carries number 3
— leave the front end's list unsorted, because the update to a known
scene is written in place without re-sorting. -/
theorem claim8_counterexample :
    (([mkSceneDoc "a" 1, mkSceneDoc "b" 2, mkSceneDoc "a" 3].map
        (fun s => s.scene_number)).Pairwise (fun a b => a ≠ b)) ∧
    ¬ ScenesSorted
        (runSceneUpdates [mkSceneDoc "a" 1, mkSceneDoc "b" 2, mkSceneDoc "a" 3]) := by
  constructor
  · decide
  · decide

/-- C8 (amended): the front end's scene list stays sorted in ascending
scene_number order under every sequence of subscription updates in which
a scene's number is a function of its id (updates never renumber a known
scene): an update to a known Scene replaces it in place — preserving
order because the number is unchanged — and a new Scene is inserted with
a re-sort by scene_number. -/
theorem claim8_scene_list_sorted (updates : List SceneDocument)
    (hconsistent : ∀ u1 ∈ updates, ∀ u2 ∈ updates,
      u1.id = u2.id → u1.scene_number = u2.scene_number) :
    ScenesSorted (runSceneUpdates updates) := by
  apply runSceneUpdates_sorted_aux updates []
  · exact List.Pairwise.nil
  · intro s hsm
    exact absurd hsm (List.not_mem_nil s)
  · exact hconsistent

/-- Witness for C8 (amended): an update to the known scene "a" keeping
its number, plus a fresh scene, leave the list sorted. -/
theorem claim8_scene_list_sorted_witness :
    (∀ u1 ∈ [mkSceneDoc "a" 2, mkSceneDoc "b" 1,
        { mkSceneDoc "a" 2 with status := .rendered }],
      ∀ u2 ∈ [mkSceneDoc "a" 2, mkSceneDoc "b" 1,
        { mkSceneDoc "a" 2 with status := .rendered }],
      u1.id = u2.id → u1.scene_number = u2.scene_number) ∧
    ScenesSorted (runSceneUpdates [mkSceneDoc "a" 2, mkSceneDoc "b" 1,
      { mkSceneDoc "a" 2 with status := .rendered }]) := by
  refine ⟨by decide, ?_⟩
  exact claim8_scene_list_sorted _ (by decide)

/-! Supporting lemmas about the orchestrator model. -/

/-- The Job state written by a successful claim. -/
def claimedJob (j : Job) : Job :=
  { j with status := .planning }

/-- The Job state written on a planning failure. -/
def planFailedJob (j : Job) (e : String) : Job :=
  { j with status := .failed, error_message := some e }

/-- The Job state written on entering Rendering and after each scene. -/
def renderingJob (j : Job) (n p : Nat) : Job :=
  { j with status := .rendering, scene_count := n, progress := p }

/-- The Job state written when rendering or assembly fails. -/
def renderFailedJob (j : Job) (n p : Nat) (e : String) : Job :=
  { j with
    status := .failed
    scene_count := n
    progress := p
    error_message := some e }

/-- The Job state written on completion. -/
def completedJob (j : Job) (n : Nat) (ref : String) : Job :=
  { j with
    status := .completed
    scene_count := n
    progress := 100
    combined_media_ref := some ref }

theorem tryClaim_eq_some (j : Job) (h : j.status = .queuedForRender) :
    tryClaim j = some (claimedJob j) := by
  simp [tryClaim, h, claimedJob]

theorem process_planFail_eq (j : Job) (renders : Nat → RenderOutcome)
    (asm : AsmOutcome) (e : String) (h : j.status = .queuedForRender) :
    process j (.failure e) renders asm =
      { job := planFailedJob j e, scenes := [], progressWrites := [],
        jobTrace := [claimedJob j, planFailedJob j e] } := by
  simp [process, tryClaim, h, claimedJob, planFailedJob]

theorem process_planZero_eq (j : Job) (renders : Nat → RenderOutcome)
    (asm : AsmOutcome) (h : j.status = .queuedForRender) :
    process j (.success 0) renders asm =
      { job := planFailedJob j "Planning produced no scenes", scenes := [],
        progressWrites := [],
        jobTrace := [claimedJob j, planFailedJob j "Planning produced no scenes"] } := by
  simp [process, tryClaim, h, claimedJob, planFailedJob]

theorem process_renderFail_eq (j : Job) (renders : Nat → RenderOutcome)
    (asm : AsmOutcome) (n : Nat) (ke : Nat × String)
    (h : j.status = .queuedForRender) (hn : n ≠ 0)
    (hr : (runRender j.id n renders).2.2 = some ke) :
    process j (.success n) renders asm =
      { job := renderFailedJob j n (lastProgress (runRender j.id n renders).2.1)
          ("Scene " ++ toString ke.1 ++ " failed: " ++ ke.2),
        scenes := (runRender j.id n renders).1,
        progressWrites := (runRender j.id n renders).2.1,
        jobTrace := [claimedJob j, renderingJob j n 0] ++
          (runRender j.id n renders).2.1.map (fun p => renderingJob j n p) ++
          [renderFailedJob j n (lastProgress (runRender j.id n renders).2.1)
            ("Scene " ++ toString ke.1 ++ " failed: " ++ ke.2)] } := by
  simp [process, tryClaim, h, hn, hr, claimedJob, renderingJob, renderFailedJob]

theorem process_completed_eq (j : Job) (renders : Nat → RenderOutcome)
    (n : Nat) (ref : String)
    (h : j.status = .queuedForRender) (hn : n ≠ 0)
    (hr : (runRender j.id n renders).2.2 = none) :
    process j (.success n) renders (.success ref) =
      { job := completedJob j n ref,
        scenes := (runRender j.id n renders).1,
        progressWrites := (runRender j.id n renders).2.1,
        jobTrace := [claimedJob j, renderingJob j n 0] ++
          (runRender j.id n renders).2.1.map (fun p => renderingJob j n p) ++
          [completedJob j n ref] } := by
  simp [process, tryClaim, h, hn, hr, claimedJob, renderingJob, completedJob]

theorem process_asmFail_eq (j : Job) (renders : Nat → RenderOutcome)
    (n : Nat) (e : String)
    (h : j.status = .queuedForRender) (hn : n ≠ 0)
    (hr : (runRender j.id n renders).2.2 = none) :
    process j (.success n) renders (.failure e) =
      { job := renderFailedJob j n (lastProgress (runRender j.id n renders).2.1) e,
        scenes := (runRender j.id n renders).1,
        progressWrites := (runRender j.id n renders).2.1,
        jobTrace := [claimedJob j, renderingJob j n 0] ++
          (runRender j.id n renders).2.1.map (fun p => renderingJob j n p) ++
          [renderFailedJob j n (lastProgress (runRender j.id n renders).2.1) e] } := by
  simp [process, tryClaim, h, hn, hr, claimedJob, renderingJob, renderFailedJob]

theorem runRenderAux_scenes_error (jid : String) (n : Nat)
    (renders : Nat → RenderOutcome) :
    ∀ fuel k, ∀ sc ∈ (runRenderAux jid n renders fuel k).1,
      (sc.error_message ≠ none ↔ sc.status = .failed) := by
  intro fuel
  induction fuel with
  | zero => intro k sc hsc; simp [runRenderAux] at hsc
  | succ fuel ih =>
    intro k sc hsc
    simp only [runRenderAux] at hsc
    cases hrk : renders k with
    | success m d =>
      rw [hrk] at hsc
      simp only at hsc
      rcases List.mem_cons.mp hsc with rfl | hsc
      · simp
      · exact ih (k + 1) sc hsc
    | failure e =>
      rw [hrk] at hsc
      simp only at hsc
      rcases List.mem_cons.mp hsc with rfl | hsc
      · simp
      · obtain ⟨i, _, rfl⟩ := List.mem_map.mp hsc
        simp [plannedScene]

theorem runRenderAux_shape (jid : String) (n : Nat)
    (renders : Nat → RenderOutcome) :
    ∀ fuel k, ∃ m, m ≤ fuel ∧
      (runRenderAux jid n renders fuel k).2.1 =
        (List.range' k m).map (fun i => roundPct i n) ∧
      ((runRenderAux jid n renders fuel k).2.2 = none → m = fuel) := by
  intro fuel
  induction fuel with
  | zero =>
    intro k
    exact ⟨0, Nat.le_refl 0, by simp [runRenderAux], fun _ => rfl⟩
  | succ fuel ih =>
    intro k
    cases hrk : renders k with
    | success m d =>
      obtain ⟨m', hm', hps, herr⟩ := ih (k + 1)
      refine ⟨m' + 1, Nat.succ_le_succ hm', ?_, ?_⟩
      · simp only [runRenderAux, hrk]
        rw [List.range'_succ, List.map_cons, hps]
      · intro h22
        simp only [runRenderAux, hrk] at h22
        rw [herr h22]
    | failure e =>
      refine ⟨0, Nat.zero_le _, by simp [runRenderAux, hrk], ?_⟩
      intro h22
      simp [runRenderAux, hrk] at h22

theorem roundPct_mono (n : Nat) (k k' : Nat) (h : k ≤ k') :
    roundPct k n ≤ roundPct k' n := by
  apply Nat.div_le_div_right
  omega

theorem roundPct_self (n : Nat) (hn : n ≠ 0) : roundPct n n = 100 := by
  rw [roundPct]
  have h1 : 200 * n + n = 2 * n * 100 + n := by ring
  rw [h1, Nat.mul_add_div (by omega)]
  rw [Nat.div_eq_of_lt (by omega)]

theorem chain_roundPct (n : Nat) :
    ∀ (m k : Nat),
      List.Chain' (fun a b => a ≤ b) ((List.range' k m).map (fun i => roundPct i n)) := by
  intro m
  induction m with
  | zero => intro k; simp
  | succ m ih =>
    intro k
    rw [List.range'_succ, List.map_cons]
    cases m with
    | zero => simp
    | succ m' =>
      have htail := ih (k + 1)
      rw [List.range'_succ, List.map_cons] at htail
      rw [List.range'_succ, List.map_cons]
      exact List.Chain'.cons (roundPct_mono n k (k + 1) (by omega)) htail

theorem getLast?_roundPct (n : Nat) (hn : n ≠ 0) :
    ((List.range' 1 n).map (fun i => roundPct i n)).getLast? = some 100 := by
  obtain ⟨m, rfl⟩ : ∃ m, n = m + 1 := ⟨n - 1, by omega⟩
  rw [List.range'_concat, List.map_append, List.map_cons, List.map_nil,
    List.getLast?_concat]
  have h1 : 1 + 1 * m = m + 1 := by omega
  rw [h1, roundPct_self (m + 1) (by omega)]

/-- A renderer behavior in which every scene succeeds. -/
def sampleRenders : Nat → RenderOutcome :=
  fun _ => .success "m" 5

/-- C4: every Job state and every Scene record the orchestrator writes
satisfies: error_message is set exactly when the status is Failed —
given that the Job enters processing error-free, as intake creates it.
The orchestrator is modelled from the spec (section 4.2); the worker
code is not among the checked sources. -/
theorem claim4_error_iff_failed (j : Job) (plan : PlanOutcome)
    (renders : Nat → RenderOutcome) (asm : AsmOutcome)
    (h : j.status = .queuedForRender) (h0 : j.error_message = none) :
    (∀ s ∈ (process j plan renders asm).jobTrace,
      (s.error_message ≠ none ↔ s.status = .failed)) ∧
    (∀ sc ∈ (process j plan renders asm).scenes,
      (sc.error_message ≠ none ↔ sc.status = .failed)) := by
  have hcl : (claimedJob j).error_message ≠ none ↔ (claimedJob j).status = .failed := by
    simp [claimedJob, h0]
  have hrd : ∀ n p, (renderingJob j n p).error_message ≠ none ↔
      (renderingJob j n p).status = .failed := by
    intro n p
    simp [renderingJob, h0]
  have hpf : ∀ e, (planFailedJob j e).error_message ≠ none ↔
      (planFailedJob j e).status = .failed := by
    intro e
    simp [planFailedJob]
  have hrf : ∀ n p e, (renderFailedJob j n p e).error_message ≠ none ↔
      (renderFailedJob j n p e).status = .failed := by
    intro n p e
    simp [renderFailedJob]
  have hcp : ∀ n ref, (completedJob j n ref).error_message ≠ none ↔
      (completedJob j n ref).status = .failed := by
    intro n ref
    simp [completedJob, h0]
  cases plan with
  | failure e =>
    rw [process_planFail_eq j renders asm e h]
    refine ⟨?_, by simp⟩
    intro s hs
    rcases (by simpa using hs : s = claimedJob j ∨ s = planFailedJob j e) with rfl | rfl
    · exact hcl
    · exact hpf e
  | success n =>
    by_cases hn0 : n = 0
    · subst hn0
      rw [process_planZero_eq j renders asm h]
      refine ⟨?_, by simp⟩
      intro s hs
      rcases (by simpa using hs :
        s = claimedJob j ∨ s = planFailedJob j "Planning produced no scenes") with rfl | rfl
      · exact hcl
      · exact hpf _
    · cases hr : (runRender j.id n renders).2.2 with
      | some ke =>
        rw [process_renderFail_eq j renders asm n ke h hn0 hr]
        refine ⟨?_, fun sc hsc => runRenderAux_scenes_error j.id n renders n 1 sc hsc⟩
        intro s hs
        simp only [List.mem_append, List.mem_cons, List.not_mem_nil, or_false,
          List.mem_map, List.mem_singleton] at hs
        rcases hs with ((rfl | rfl) | ⟨p, _, rfl⟩) | rfl
        · exact hcl
        · exact hrd n 0
        · exact hrd n p
        · exact hrf n _ _
      | none =>
        cases asm with
        | success ref =>
          rw [process_completed_eq j renders n ref h hn0 hr]
          refine ⟨?_, fun sc hsc => runRenderAux_scenes_error j.id n renders n 1 sc hsc⟩
          intro s hs
          simp only [List.mem_append, List.mem_cons, List.not_mem_nil, or_false,
            List.mem_map, List.mem_singleton] at hs
          rcases hs with ((rfl | rfl) | ⟨p, _, rfl⟩) | rfl
          · exact hcl
          · exact hrd n 0
          · exact hrd n p
          · exact hcp n ref
        | failure e =>
          rw [process_asmFail_eq j renders n e h hn0 hr]
          refine ⟨?_, fun sc hsc => runRenderAux_scenes_error j.id n renders n 1 sc hsc⟩
          intro s hs
          simp only [List.mem_append, List.mem_cons, List.not_mem_nil, or_false,
            List.mem_map, List.mem_singleton] at hs
          rcases hs with ((rfl | rfl) | ⟨p, _, rfl⟩) | rfl
          · exact hcl
          · exact hrd n 0
          · exact hrd n p
          · exact hrf n _ e

/-- Witness for C4: the planning write of a concrete run satisfies the
biconditional, the hypotheses holding at the sample queued Job. -/
theorem claim4_error_iff_failed_witness :
    sampleQueuedJob.status = .queuedForRender ∧
    sampleQueuedJob.error_message = none ∧
    ((claimedJob sampleQueuedJob).error_message ≠ none ↔
      (claimedJob sampleQueuedJob).status = .failed) := by
  refine ⟨rfl, rfl, ?_⟩
  exact (claim4_error_iff_failed sampleQueuedJob (.success 2) sampleRenders
    (.success "ref") rfl rfl).1 (claimedJob sampleQueuedJob) (by decide)

/-- C2 counterexample: the observed document the VideoGenerator
completed-lag branch exists for (lines 123 and 565: status completed,
no combined_video_url) falsifies the claimed biconditional at that
observed instant; the front end treats this very state as expected
input — the same condition starts its polling effect. -/
theorem claim2_counterexample :
    completedLagBranch lagDoc = true ∧ mediaRefIffCompleted lagDoc = false :=
  ⟨rfl, rfl⟩

/-- C2 (amended): one direction is an invariant of every store write —
a set combined media reference implies status Completed — and a run that
ends Completed leaves the reference set; the converse holds only
eventually: an observer can transiently see Completed with the reference
unset (the state the front end's polling branch handles). Orchestrator
modelled from the spec (section 4.2). -/
theorem claim2_media_ref_invariant (j : Job) (plan : PlanOutcome)
    (renders : Nat → RenderOutcome) (asm : AsmOutcome)
    (h : j.status = .queuedForRender) (h0 : j.combined_media_ref = none) :
    (∀ s ∈ (process j plan renders asm).jobTrace,
      s.combined_media_ref ≠ none → s.status = .completed) ∧
    ((process j plan renders asm).job.status = .completed →
      (process j plan renders asm).job.combined_media_ref ≠ none) := by
  have hcl : (claimedJob j).combined_media_ref ≠ none →
      (claimedJob j).status = .completed := by
    simp [claimedJob, h0]
  have hrd : ∀ n p, (renderingJob j n p).combined_media_ref ≠ none →
      (renderingJob j n p).status = .completed := by
    intro n p
    simp [renderingJob, h0]
  have hpf : ∀ e, (planFailedJob j e).combined_media_ref ≠ none →
      (planFailedJob j e).status = .completed := by
    intro e
    simp [planFailedJob, h0]
  have hrf : ∀ n p e, (renderFailedJob j n p e).combined_media_ref ≠ none →
      (renderFailedJob j n p e).status = .completed := by
    intro n p e
    simp [renderFailedJob, h0]
  have hcp : ∀ n ref, (completedJob j n ref).combined_media_ref ≠ none →
      (completedJob j n ref).status = .completed := by
    intro n ref _
    rfl
  cases plan with
  | failure e =>
    rw [process_planFail_eq j renders asm e h]
    refine ⟨?_, ?_⟩
    · intro s hs
      rcases (by simpa using hs : s = claimedJob j ∨ s = planFailedJob j e) with rfl | rfl
      · exact hcl
      · exact hpf e
    · intro hc
      simp [planFailedJob] at hc
  | success n =>
    by_cases hn0 : n = 0
    · subst hn0
      rw [process_planZero_eq j renders asm h]
      refine ⟨?_, ?_⟩
      · intro s hs
        rcases (by simpa using hs :
          s = claimedJob j ∨ s = planFailedJob j "Planning produced no scenes") with rfl | rfl
        · exact hcl
        · exact hpf _
      · intro hc
        simp [planFailedJob] at hc
    · cases hr : (runRender j.id n renders).2.2 with
      | some ke =>
        rw [process_renderFail_eq j renders asm n ke h hn0 hr]
        refine ⟨?_, ?_⟩
        · intro s hs
          simp only [List.mem_append, List.mem_cons, List.not_mem_nil, or_false,
            List.mem_map, List.mem_singleton] at hs
          rcases hs with ((rfl | rfl) | ⟨p, _, rfl⟩) | rfl
          · exact hcl
          · exact hrd n 0
          · exact hrd n p
          · exact hrf n _ _
        · intro hc
          simp [renderFailedJob] at hc
      | none =>
        cases asm with
        | success ref =>
          rw [process_completed_eq j renders n ref h hn0 hr]
          refine ⟨?_, ?_⟩
          · intro s hs
            simp only [List.mem_append, List.mem_cons, List.not_mem_nil, or_false,
              List.mem_map, List.mem_singleton] at hs
            rcases hs with ((rfl | rfl) | ⟨p, _, rfl⟩) | rfl
            · exact hcl
            · exact hrd n 0
            · exact hrd n p
            · exact hcp n ref
          · intro _
            simp [completedJob]
        | failure e =>
          rw [process_asmFail_eq j renders n e h hn0 hr]
          refine ⟨?_, ?_⟩
          · intro s hs
            simp only [List.mem_append, List.mem_cons, List.not_mem_nil, or_false,
              List.mem_map, List.mem_singleton] at hs
            rcases hs with ((rfl | rfl) | ⟨p, _, rfl⟩) | rfl
            · exact hcl
            · exact hrd n 0
            · exact hrd n p
            · exact hrf n _ e
          · intro hc
            simp [renderFailedJob] at hc

/-- Witness for C2 (amended): a completing run on the sample queued Job
ends Completed with the reference set. -/
theorem claim2_media_ref_invariant_witness :
    sampleQueuedJob.status = .queuedForRender ∧
    sampleQueuedJob.combined_media_ref = none ∧
    (process sampleQueuedJob (.success 2) sampleRenders
      (.success "ref")).job.combined_media_ref ≠ none := by
  refine ⟨rfl, rfl, ?_⟩
  exact (claim2_media_ref_invariant sampleQueuedJob (.success 2) sampleRenders
    (.success "ref") rfl rfl).2 rfl

/-- C5 counterexample: one planned scene renders — writing progress 100
during Rendering — and then assembly fails: the written progress
sequence is [100], ending at 100, yet the Job ends Failed, refuting
"its final value is 100 exactly when all N scenes render and the Job
reaches Completed". -/
theorem claim5_counterexample :
    (process sampleQueuedJob (.success 1) (fun _ => .success "m" 5)
      (.failure "assembly failed")).progressWrites = [100] ∧
    (process sampleQueuedJob (.success 1) (fun _ => .success "m" 5)
      (.failure "assembly failed")).job.status = .failed :=
  ⟨rfl, rfl⟩

/-- C5 (amended): the progress values written during Rendering are
round(k / N * 100) for the successfully rendered prefix, a non-decreasing
sequence; when the Job reaches Completed the sequence ends at 100; the
converse fails only in that the final value is also 100 when every scene
rendered but assembly failed. Orchestrator modelled from the spec
(section 4.2). -/
theorem claim5_progress_monotone (j : Job) (plan : PlanOutcome)
    (renders : Nat → RenderOutcome) (asm : AsmOutcome)
    (h : j.status = .queuedForRender) :
    List.Chain' (fun a b => a ≤ b) (process j plan renders asm).progressWrites ∧
    ((process j plan renders asm).job.status = .completed →
      (process j plan renders asm).progressWrites.getLast? = some 100) := by
  cases plan with
  | failure e =>
    rw [process_planFail_eq j renders asm e h]
    refine ⟨List.chain'_nil, ?_⟩
    intro hc
    simp [planFailedJob] at hc
  | success n =>
    by_cases hn0 : n = 0
    · subst hn0
      rw [process_planZero_eq j renders asm h]
      refine ⟨List.chain'_nil, ?_⟩
      intro hc
      simp [planFailedJob] at hc
    · obtain ⟨m, hm, hps, herr⟩ := runRenderAux_shape j.id n renders n 1
      have hps' : (runRender j.id n renders).2.1 =
          (List.range' 1 m).map (fun i => roundPct i n) := hps
      cases hr : (runRender j.id n renders).2.2 with
      | some ke =>
        rw [process_renderFail_eq j renders asm n ke h hn0 hr]
        refine ⟨?_, ?_⟩
        · rw [hps']
          exact chain_roundPct n m 1
        · intro hc
          simp [renderFailedJob] at hc
      | none =>
        have hmn : m = n := herr hr
        cases asm with
        | success ref =>
          rw [process_completed_eq j renders n ref h hn0 hr]
          refine ⟨?_, fun _ => ?_⟩
          · rw [hps']
            exact chain_roundPct n m 1
          · rw [hps', hmn]
            exact getLast?_roundPct n hn0
        | failure e =>
          rw [process_asmFail_eq j renders n e h hn0 hr]
          refine ⟨?_, ?_⟩
          · rw [hps']
            exact chain_roundPct n m 1
          · intro hc
            simp [renderFailedJob] at hc

/-- Witness for C5 (amended): a completing two-scene run on the sample
queued Job has non-decreasing progress writes ending at 100. -/
theorem claim5_progress_monotone_witness :
    sampleQueuedJob.status = .queuedForRender ∧
    List.Chain' (fun a b => a ≤ b)
      (process sampleQueuedJob (.success 2) sampleRenders
        (.success "ref")).progressWrites ∧
    (process sampleQueuedJob (.success 2) sampleRenders
      (.success "ref")).progressWrites.getLast? = some 100 := by
  refine ⟨rfl, (claim5_progress_monotone sampleQueuedJob (.success 2)
    sampleRenders (.success "ref") rfl).1, ?_⟩
  exact (claim5_progress_monotone sampleQueuedJob (.success 2) sampleRenders
    (.success "ref") rfl).2 rfl

/-- A fetch outcome that does not resolve the poll: a document without
the reference, a null document, or a thrown fetch. -/
def fetchUnresolved : FetchResult → Bool
  | .ok (some v) => v.combined_video_url.isNone
  | .ok none => true
  | .exn _ => true

theorem pollTicks_unresolved (fs : List FetchResult) :
    ∀ a : Nat, (∀ f ∈ fs, fetchUnresolved f = true) →
    a + fs.length < maxPollAttempts →
    fs.foldl pollTick { attempts := a, current := none, error := none, stopped := false } =
      { attempts := a + fs.length, current := none, error := none, stopped := false } := by
  induction fs with
  | nil => intro a _ _; simp
  | cons f rest ih =>
    intro a hall hlen
    rw [List.foldl_cons]
    have hna : ¬ maxPollAttempts ≤ a + 1 := by
      simp only [List.length_cons] at hlen
      omega
    have hstep : pollTick
        { attempts := a, current := none, error := none, stopped := false } f =
        { attempts := a + 1, current := none, error := none, stopped := false } := by
      have hf := hall f (List.mem_cons_self f rest)
      cases f with
      | ok latest =>
        cases latest with
        | some v =>
          have hvu : v.combined_video_url.isSome = false := by
            have : v.combined_video_url.isNone = true := by
              simpa [fetchUnresolved] using hf
            cases hv : v.combined_video_url with
            | none => simp
            | some u => rw [hv] at this; simp at this
          simp [pollTick, hvu, hna]
        | none => simp [pollTick, hna]
      | exn e => simp [pollTick, hna]
    rw [hstep]
    have hrest := ih (a + 1) (fun g hg => hall g (List.mem_cons_of_mem f hg))
      (by simp only [List.length_cons] at hlen; omega)
    rw [hrest]
    have harith : a + 1 + rest.length = a + (f :: rest).length := by
      simp only [List.length_cons]
      omega
    rw [harith]

/-- C3 counterexample: the condition that starts the polling effect holds
of the lagging document, and when ten consecutive polls keep returning it
without the reference the front end sets a user-visible error message —
refuting "never reporting it to the user as an error". -/
theorem claim3_counterexample :
    completedLagBranch lagDoc = true ∧
    (pollRun (List.replicate maxPollAttempts (.ok (some lagDoc)))).error =
      some lagTimeoutMessage :=
  ⟨rfl, rfl⟩

/-- C3 (amended): after observing Completed without the reference the
front end polls the store for it and treats the lag as expected while
attempts remain: any run of fewer than maxPollAttempts unresolved polls
sets no error and keeps polling, and a poll that finds the reference
stores the document and stops with no error; only when all
maxPollAttempts polls stay unresolved does it surface a message. -/
theorem claim3_poll_behavior (fs : List FetchResult) (v : VideoDocument)
    (hfs : ∀ f ∈ fs, fetchUnresolved f = true)
    (hlen : fs.length < maxPollAttempts)
    (hv : v.combined_video_url.isSome = true) :
    (pollRun fs).error = none ∧ (pollRun fs).stopped = false ∧
    pollRun (fs ++ [.ok (some v)]) =
      { attempts := fs.length + 1, current := some v, error := none,
        stopped := true } := by
  have h0 : pollRun fs =
      { attempts := fs.length, current := none, error := none, stopped := false } := by
    have hbase := pollTicks_unresolved fs 0 hfs (by omega)
    simpa [pollRun, pollStart] using hbase
  refine ⟨by rw [h0], by rw [h0], ?_⟩
  rw [pollRun, List.foldl_append, List.foldl_cons, List.foldl_nil]
  rw [show List.foldl pollTick pollStart fs = pollRun fs from rfl, h0]
  simp [pollTick, hv]

/-- Witness for C3 (amended): three unresolved polls on the lagging
document followed by a successful fetch of the ready document. -/
theorem claim3_poll_behavior_witness :
    (∀ f ∈ List.replicate 3 (FetchResult.ok (some lagDoc)),
      fetchUnresolved f = true) ∧
    (List.replicate 3 (FetchResult.ok (some lagDoc))).length < maxPollAttempts ∧
    readyDoc.combined_video_url.isSome = true ∧
    pollRun (List.replicate 3 (FetchResult.ok (some lagDoc)) ++
        [.ok (some readyDoc)]) =
      { attempts := 4, current := some readyDoc, error := none,
        stopped := true } := by
  refine ⟨by decide, by decide, rfl, ?_⟩
  have h := claim3_poll_behavior (List.replicate 3 (.ok (some lagDoc))) readyDoc
    (by decide) (by decide) rfl
  simpa using h.2.2

end VideoApp
